import Mathlib

/-!
# dns-server: the resolution engine of `main.go`

A shallow embedding of `getResponseIP`, `queryExternalDNS` and the handler
returned by `handleDNSRequest`, and the properties of the override lookup,
the upstream forwarding loop and the response the handler writes.

The handler is registered with `dns.HandleFunc` (main.go, line 107) and is
called by the library's server, which hands a handler only requests that
carry a question; the properties of the handler are stated for such requests.

Go's `log.Printf` calls only write to the process log and are left out.
The network, the address splitter, the address reader and the random
message id are inputs of the model (`Env`).
-/

namespace DnsServer

/-! ## Configuration (main.go, lines 14-23) -/

/-- One override entry: `type DNSConfig struct`. -/
structure DNSConfig where
  Domain : String
  Interface : String
  ResponseIP : String
deriving DecidableEq, Repr

/-- The configuration: `type Config struct`. -/
structure Config where
  DNSConfigs : List DNSConfig
  DNSServers : List String
deriving DecidableEq, Repr

/-! ## The DNS message library (github.com/miekg/dns, imported by main.go)

The library is not part of the repository. The message types and the two
message builders the program calls are written out after the library. -/

/-- Go's `net.IP`, a byte slice; the nil slice is the empty list. -/
abbrev IP := List Nat

/-- The constant `dns.TypeA`. -/
def TypeA : Nat := 1

/-- The constant `dns.ClassINET`. -/
def ClassINET : Nat := 1

/-- The constant `dns.OpcodeQuery`. -/
def OpcodeQuery : Nat := 0

/-- The constant `dns.RcodeSuccess`. -/
def RcodeSuccess : Nat := 0

/-- One entry of a question section: `dns.Question`. -/
structure Question where
  Name : String
  Qtype : Nat
  Qclass : Nat
deriving DecidableEq, Repr

/-- The header of a resource record: `dns.RR_Header`. -/
structure RR_Header where
  Name : String
  Rrtype : Nat
  Class : Nat
  Ttl : Nat
  Rdlength : Nat
deriving DecidableEq, Repr

/-- A resource record (`dns.RR`): an address record `dns.A`, or a record of
any other type kept with its data uninterpreted (`dns.RFC3597`). -/
inductive RR where
  | A (Hdr : RR_Header) (A : IP)
  | RFC3597 (Hdr : RR_Header) (Rdata : String)
deriving DecidableEq, Repr

/-- A DNS message: `dns.Msg`, with the fields of the embedded `dns.MsgHdr`. -/
structure Msg where
  Id : Nat
  Response : Bool
  Opcode : Nat
  Authoritative : Bool
  Truncated : Bool
  RecursionDesired : Bool
  RecursionAvailable : Bool
  Zero : Bool
  AuthenticatedData : Bool
  CheckingDisabled : Bool
  Rcode : Nat
  Compress : Bool
  Question : List Question
  Answer : List RR
  Ns : List RR
  Extra : List RR
deriving DecidableEq, Repr

/-- The zero message: Go's `dns.Msg{}` and `new(dns.Msg)`. -/
def Msg.zero : Msg :=
  { Id := 0, Response := false, Opcode := 0, Authoritative := false, Truncated := false,
    RecursionDesired := false, RecursionAvailable := false, Zero := false,
    AuthenticatedData := false, CheckingDisabled := false, Rcode := 0, Compress := false,
    Question := [], Answer := [], Ns := [], Extra := [] }

/-- Library function `(*dns.Msg).SetReply`:
```
dns.Id = request.Id
dns.Response = true
dns.Opcode = request.Opcode
if dns.Opcode == OpcodeQuery {
    dns.RecursionDesired = request.RecursionDesired
    dns.CheckingDisabled = request.CheckingDisabled
}
dns.Rcode = RcodeSuccess
if len(request.Question) > 0 {
    dns.Question = []Question{request.Question[0]}
}
```
Only the first question of the request is copied. -/
def Msg.SetReply (dns request : Msg) : Msg :=
  let dns := { dns with Id := request.Id }
  let dns := { dns with Response := true }
  let dns := { dns with Opcode := request.Opcode }
  let dns :=
    if dns.Opcode = OpcodeQuery then
      { dns with RecursionDesired := request.RecursionDesired,
                 CheckingDisabled := request.CheckingDisabled }
    else dns
  let dns := { dns with Rcode := RcodeSuccess }
  match request.Question with
  | [] => dns
  | q :: _ => { dns with Question := [q] }

/-- Library function `(*dns.Msg).SetQuestion`:
```
dns.Id = Id()
dns.RecursionDesired = true
dns.Question = make([]Question, 1)
dns.Question[0] = Question{z, t, ClassINET}
```
`Id()` draws a random 16-bit id; the drawn value is the argument `id`. -/
def Msg.SetQuestion (dns : Msg) (id : Nat) (z : String) (t : Nat) : Msg :=
  { dns with Id := id, RecursionDesired := true, Question := [⟨z, t, ClassINET⟩] }

/-! ## The environment of one request -/

/-- One upstream exchange that was issued: the server asked and the message
sent to it. -/
structure Attempt where
  server : String
  query : Msg
deriving DecidableEq, Repr

/-- What the program takes from outside.
* `Id`: the id `dns.Id()` draws for the upstream question.
* `Exchange net m server`: the result of `c.Exchange(m, server)` (response or
  error) when the exchanges `net` were issued before it; the result may
  depend on everything issued so far.
* `SplitHostPort`: Go's `net.SplitHostPort`.
* `ParseIP`: Go's `net.ParseIP`. -/
structure Env where
  Id : Nat
  Exchange : List Attempt → Msg → String → Except String Msg
  SplitHostPort : String → Except String (String × String)
  ParseIP : String → IP

/-- The `dns.ResponseWriter` of a request: the local address it reports and
the messages handed to `WriteMsg` so far. -/
structure ResponseWriter where
  LocalAddr : String
  written : List Msg
deriving DecidableEq, Repr

/-- The call `w.WriteMsg(&msg)`; the handler ignores its error result. -/
def ResponseWriter.WriteMsg (w : ResponseWriter) (msg : Msg) : ResponseWriter :=
  { w with written := w.written ++ [msg] }

/-- A Go run-time panic. -/
inductive RuntimeError where
  | indexOutOfRange (index length : Nat)
deriving DecidableEq, Repr

/-! ## The program (main.go, lines 40-99) -/

/-- The function `getResponseIP` (main.go, lines 40-47). -/
def getResponseIP : List DNSConfig → String → String → String × Bool
  | [], _, _ => ("", false)
  | cfg :: rest, domain, iface =>
    if cfg.Domain = domain ∧ cfg.Interface = iface then
      (cfg.ResponseIP, true)
    else
      getResponseIP rest domain iface

/-- The message `m` of `queryExternalDNS` (main.go, lines 50-51). -/
def externalQuery (env : Env) (domain : String) : Msg :=
  Msg.zero.SetQuestion env.Id domain TypeA

/-- The loop of `queryExternalDNS` (main.go, lines 55-62) over the servers
still to try; `net` is the list of exchanges issued so far. -/
def queryLoop (env : Env) (m : Msg) : List String → List Attempt → Except String Msg × List Attempt
  | [], net => (.error "no external DNS response obtained", net)
  | server :: rest, net =>
    match env.Exchange net m server with
    | .ok resp =>
      if resp.Answer.length > 0 then
        (.ok resp, net ++ [⟨server, m⟩])
      else
        queryLoop env m rest (net ++ [⟨server, m⟩])
    | .error _ => queryLoop env m rest (net ++ [⟨server, m⟩])

/-- The function `queryExternalDNS` (main.go, lines 49-63): the result and the
exchanges issued, the earlier ones included. -/
def queryExternalDNS (env : Env) (domain : String) (servers : List String)
    (net : List Attempt) : Except String Msg × List Attempt :=
  queryLoop env (externalQuery env domain) servers net

/-- The handler returned by `handleDNSRequest(config)` (main.go, lines 66-98),
run on the writer `w` and the request `req` after the exchanges `net`. It
returns the writer and the exchanges afterwards, or the panic that ended it. -/
def handleDNSRequest (env : Env) (config : Config) (w : ResponseWriter)
    (net : List Attempt) (req : Msg) : Except RuntimeError (ResponseWriter × List Attempt) :=
  let msg := Msg.zero.SetReply req
  match req.Question with
  | [] => .error (.indexOutOfRange 0 0)
  | question :: _ =>
    let localAddr := w.LocalAddr
    match env.SplitHostPort localAddr with
    | .error _ => .ok (w, net)
    | .ok (serverIP, _) =>
      match getResponseIP config.DNSConfigs question.Name serverIP with
      | (responseIP, true) =>
        let msg := { msg with Answer := msg.Answer ++
          [RR.A ⟨question.Name, TypeA, ClassINET, 300, 0⟩ (env.ParseIP responseIP)] }
        .ok (w.WriteMsg msg, net)
      | (_, false) =>
        match queryExternalDNS env question.Name config.DNSServers net with
        | (.ok extResp, net1) => .ok (w.WriteMsg { msg with Answer := extResp.Answer }, net1)
        | (.error _, net1) => .ok (w.WriteMsg msg, net1)

/-! ## Specification-side definitions -/

/-- The override entry `cfg` is for exactly this domain and this interface
(string equality on both). -/
def Matches (cfg : DNSConfig) (domain iface : String) : Prop :=
  cfg.Domain = domain ∧ cfg.Interface = iface

instance (cfg : DNSConfig) (domain iface : String) : Decidable (Matches cfg domain iface) :=
  inferInstanceAs (Decidable (_ ∧ _))

/-- First-match lookup as the specification words it: the response address
of the first entry, in load order, whose domain and interface both match
exactly; not found when no entry matches. -/
def firstMatchLookup (entries : List DNSConfig) (domain iface : String) : String × Bool :=
  match entries.find? (fun e => decide (Matches e domain iface)) with
  | some e => (e.ResponseIP, true)
  | none => ("", false)

/-- An exchange result is usable: no error and at least one answer record. -/
def usable : Except String Msg → Bool
  | .ok resp => decide (resp.Answer.length > 0)
  | .error _ => false

/-- The exchanges of one pass over `servers` with the message `m`. -/
def attemptsOn (m : Msg) (servers : List String) : List Attempt :=
  servers.map (fun server => ⟨server, m⟩)

/-- The result of the exchange with server number `i` (from 0) of `servers`,
when it is issued after the exchanges `net` and one exchange with each
server before it; `none` when the list has no server number `i`. -/
def exchangeAt (env : Env) (m : Msg) (servers : List String) (net : List Attempt)
    (i : Nat) : Option (Except String Msg) :=
  (servers[i]?).map (fun server => env.Exchange (net ++ attemptsOn m (servers.take i)) m server)

/-- Every server of the list fails: its exchange errors or has no answer. -/
def AllFail (env : Env) (m : Msg) (servers : List String) (net : List Attempt) : Prop :=
  ∀ i r, exchangeAt env m servers net i = some r → usable r = false

/-! ## A sample environment, for the concrete cases -/

/-- A sample environment: two local addresses split, two address literals
read (in the 16-byte form `net.ParseIP` gives an IPv4 literal), the upstream
`1.1.1.1:53` times out and `8.8.8.8:53` answers any question with one record
for `a.example.`. -/
def sampleEnv : Env where
  Id := 4660
  Exchange := fun _ m server =>
    if server = "8.8.8.8:53" then
      .ok { m with Response := true,
                   Answer := [RR.A ⟨"a.example.", TypeA, ClassINET, 60, 4⟩
                     [0, 0, 0, 0, 0, 0, 0, 0, 0, 0, 255, 255, 93, 184, 216, 34]] }
    else .error "i/o timeout"
  SplitHostPort := fun s =>
    if s = "10.0.0.1:53" then .ok ("10.0.0.1", "53")
    else if s = "10.0.0.2:53" then .ok ("10.0.0.2", "53")
    else .error "missing port in address"
  ParseIP := fun s =>
    if s = "192.168.1.5" then [0, 0, 0, 0, 0, 0, 0, 0, 0, 0, 255, 255, 192, 168, 1, 5]
    else if s = "192.168.1.6" then [0, 0, 0, 0, 0, 0, 0, 0, 0, 0, 255, 255, 192, 168, 1, 6]
    else []

/-- The override table of the specification's scenarios, with two upstreams. -/
def sampleConfig : Config :=
  { DNSConfigs := [⟨"a.example.", "10.0.0.1", "192.168.1.5"⟩],
    DNSServers := ["1.1.1.1:53", "8.8.8.8:53"] }

/-- A query with id 7 and the given question section. -/
def sampleQuery (questions : List Question) : Msg :=
  { Msg.zero with Id := 7, RecursionDesired := true, Question := questions }

/-- The response `8.8.8.8:53` gives in the sample environment to the question
for `a.example.`. -/
def sampleResponse : Msg :=
  { externalQuery sampleEnv "a.example." with
      Response := true,
      Answer := [RR.A ⟨"a.example.", TypeA, ClassINET, 60, 4⟩
        [0, 0, 0, 0, 0, 0, 0, 0, 0, 0, 255, 255, 93, 184, 216, 34]] }

/-- The sample table with two upstreams that both time out. -/
def unreachableConfig : Config :=
  { DNSConfigs := [⟨"a.example.", "10.0.0.1", "192.168.1.5"⟩],
    DNSServers := ["1.1.1.1:53", "9.9.9.9:53"] }

/-- A query for a.example. of type MX and class CHAOS that carries a second
question. -/
def otherTypeQuery : Msg :=
  { Msg.zero with Id := 9, Question := [⟨"a.example.", 15, 3⟩, ⟨"b.example.", TypeA, ClassINET⟩] }

/-! ## Lemmas on `getResponseIP` -/

theorem getResponseIP_eq_firstMatchLookup (dnsConfigs : List DNSConfig) (domain iface : String) :
    getResponseIP dnsConfigs domain iface = firstMatchLookup dnsConfigs domain iface := by
  induction dnsConfigs with
  | nil => rfl
  | cons cfg rest ih =>
    by_cases h : cfg.Domain = domain ∧ cfg.Interface = iface
    · simp [getResponseIP, firstMatchLookup, Matches, h]
    · have h' : ¬ Matches cfg domain iface := h
      simp only [getResponseIP, if_neg h, ih, firstMatchLookup, List.find?, decide_eq_false h']

theorem getResponseIP_of_exists (dnsConfigs : List DNSConfig) (domain iface : String)
    (h : ∃ cfg ∈ dnsConfigs, Matches cfg domain iface) :
    ∃ (i : Nat) (cfg : DNSConfig), dnsConfigs[i]? = some cfg ∧ Matches cfg domain iface ∧
      (∀ (j : Nat) (c : DNSConfig), j < i → dnsConfigs[j]? = some c → ¬ Matches c domain iface) ∧
      getResponseIP dnsConfigs domain iface = (cfg.ResponseIP, true) := by
  induction dnsConfigs with
  | nil => simp at h
  | cons cfg rest ih =>
    by_cases hm : Matches cfg domain iface
    · refine ⟨0, cfg, by simp, hm, ?_, ?_⟩
      · intro j c hj; omega
      · have hm' : cfg.Domain = domain ∧ cfg.Interface = iface := hm
        simp only [getResponseIP, if_pos hm']
    · have hrest : ∃ c ∈ rest, Matches c domain iface := by
        obtain ⟨c, hc, hcm⟩ := h
        rcases List.mem_cons.mp hc with rfl | hc
        · exact absurd hcm hm
        · exact ⟨c, hc, hcm⟩
      obtain ⟨i, c, hi, hc, hbefore, hres⟩ := ih hrest
      refine ⟨i + 1, c, by simpa using hi, hc, ?_, ?_⟩
      · intro j c' hj hj'
        cases j with
        | zero =>
          simp only [List.getElem?_cons_zero, Option.some.injEq] at hj'
          subst hj'; exact hm
        | succ j =>
          simp only [List.getElem?_cons_succ] at hj'
          exact hbefore j c' (by omega) hj'
      · have hm' : ¬ (cfg.Domain = domain ∧ cfg.Interface = iface) := hm
        simp only [getResponseIP, if_neg hm', hres]

theorem getResponseIP_of_not_exists (dnsConfigs : List DNSConfig) (domain iface : String)
    (h : ¬ ∃ cfg ∈ dnsConfigs, Matches cfg domain iface) :
    getResponseIP dnsConfigs domain iface = ("", false) := by
  induction dnsConfigs with
  | nil => rfl
  | cons cfg rest ih =>
    have hm : ¬ (cfg.Domain = domain ∧ cfg.Interface = iface) := fun hm =>
      h ⟨cfg, List.mem_cons_self _ _, hm⟩
    have hrest : ¬ ∃ c ∈ rest, Matches c domain iface := fun ⟨c, hc, hcm⟩ =>
      h ⟨c, List.mem_cons_of_mem _ hc, hcm⟩
    simp only [getResponseIP, if_neg hm, ih hrest]

theorem getResponseIP_found_iff (dnsConfigs : List DNSConfig) (domain iface : String) :
    (getResponseIP dnsConfigs domain iface).2 = true ↔
      ∃ cfg ∈ dnsConfigs, Matches cfg domain iface := by
  constructor
  · intro hfound
    by_contra hno
    rw [getResponseIP_of_not_exists dnsConfigs domain iface hno] at hfound
    simp at hfound
  · intro h
    obtain ⟨i, cfg, _, _, _, hres⟩ := getResponseIP_of_exists dnsConfigs domain iface h
    rw [hres]

/-! ## Lemmas on the forwarding loop -/

theorem exchangeAt_nil (env : Env) (m : Msg) (net : List Attempt) (i : Nat) :
    exchangeAt env m [] net i = none := by
  simp [exchangeAt]

theorem exchangeAt_cons_zero (env : Env) (m : Msg) (server : String) (rest : List String)
    (net : List Attempt) :
    exchangeAt env m (server :: rest) net 0 = some (env.Exchange net m server) := by
  simp [exchangeAt, attemptsOn]

theorem exchangeAt_cons_succ (env : Env) (m : Msg) (server : String) (rest : List String)
    (net : List Attempt) (i : Nat) :
    exchangeAt env m (server :: rest) net (i + 1) =
      exchangeAt env m rest (net ++ [⟨server, m⟩]) i := by
  simp [exchangeAt, attemptsOn, List.append_assoc]

theorem usable_eq_true_iff (r : Except String Msg) :
    usable r = true ↔ ∃ resp, r = .ok resp ∧ 0 < resp.Answer.length := by
  cases r with
  | error e => simp [usable]
  | ok resp => simp [usable]

theorem queryLoop_step_of_not_usable (env : Env) (m : Msg) (server : String)
    (rest : List String) (net : List Attempt)
    (h : usable (env.Exchange net m server) = false) :
    queryLoop env m (server :: rest) net = queryLoop env m rest (net ++ [⟨server, m⟩]) := by
  rw [queryLoop]
  cases hx : env.Exchange net m server with
  | error e => rfl
  | ok resp =>
    rw [hx] at h
    have hlen : ¬ (resp.Answer.length > 0) := by simpa [usable] using h
    simp only [if_neg hlen]

theorem queryLoop_step_of_usable (env : Env) (m : Msg) (server : String)
    (rest : List String) (net : List Attempt) (resp : Msg)
    (hx : env.Exchange net m server = .ok resp) (hans : 0 < resp.Answer.length) :
    queryLoop env m (server :: rest) net = (.ok resp, net ++ [⟨server, m⟩]) := by
  rw [queryLoop, hx]
  have hlen : resp.Answer.length > 0 := hans
  simp only [if_pos hlen]

theorem queryLoop_first_success (env : Env) (m : Msg) (servers : List String)
    (net : List Attempt) (i : Nat) (resp : Msg)
    (hfail : ∀ j r, j < i → exchangeAt env m servers net j = some r → usable r = false)
    (hok : exchangeAt env m servers net i = some (.ok resp))
    (hans : 0 < resp.Answer.length) :
    queryLoop env m servers net = (.ok resp, net ++ attemptsOn m (servers.take (i + 1))) := by
  induction servers generalizing net i with
  | nil => simp [exchangeAt_nil] at hok
  | cons server rest ih =>
    cases i with
    | zero =>
      rw [exchangeAt_cons_zero] at hok
      have hx : env.Exchange net m server = .ok resp := Option.some.inj hok
      rw [queryLoop_step_of_usable env m server rest net resp hx hans]
      simp [attemptsOn]
    | succ i =>
      have h0 : usable (env.Exchange net m server) = false :=
        hfail 0 _ (Nat.succ_pos i) (exchangeAt_cons_zero env m server rest net)
      rw [queryLoop_step_of_not_usable env m server rest net h0]
      rw [exchangeAt_cons_succ] at hok
      have hfail' : ∀ j r, j < i →
          exchangeAt env m rest (net ++ [⟨server, m⟩]) j = some r → usable r = false := by
        intro j r hj hr
        exact hfail (j + 1) r (by omega) (by rw [exchangeAt_cons_succ]; exact hr)
      rw [ih (net ++ [Attempt.mk server m]) i hfail' hok]
      simp [attemptsOn, List.append_assoc]

theorem queryLoop_all_fail (env : Env) (m : Msg) (servers : List String)
    (net : List Attempt) (h : AllFail env m servers net) :
    queryLoop env m servers net =
      (.error "no external DNS response obtained", net ++ attemptsOn m servers) := by
  induction servers generalizing net with
  | nil => simp [queryLoop, attemptsOn]
  | cons server rest ih =>
    have h0 : usable (env.Exchange net m server) = false :=
      h 0 _ (exchangeAt_cons_zero env m server rest net)
    rw [queryLoop_step_of_not_usable env m server rest net h0]
    have hrest : AllFail env m rest (net ++ [⟨server, m⟩]) := by
      intro j r hr
      exact h (j + 1) r (by rw [exchangeAt_cons_succ]; exact hr)
    rw [ih (net ++ [Attempt.mk server m]) hrest]
    simp [attemptsOn, List.append_assoc]

theorem allFail_of_queryLoop_error (env : Env) (m : Msg) (servers : List String)
    (net : List Attempt) (e : String) (h : (queryLoop env m servers net).1 = .error e) :
    AllFail env m servers net := by
  induction servers generalizing net with
  | nil => intro i r hr; simp [exchangeAt_nil] at hr
  | cons server rest ih =>
    cases hu : usable (env.Exchange net m server) with
    | true =>
      obtain ⟨resp, hx, hans⟩ := (usable_eq_true_iff _).mp hu
      rw [queryLoop_step_of_usable env m server rest net resp hx hans] at h
      simp at h
    | false =>
      rw [queryLoop_step_of_not_usable env m server rest net hu] at h
      have hrest := ih (net ++ [⟨server, m⟩]) h
      intro i r hr
      cases i with
      | zero =>
        rw [exchangeAt_cons_zero] at hr
        rw [← Option.some.inj hr]; exact hu
      | succ i =>
        rw [exchangeAt_cons_succ] at hr
        exact hrest i r hr

/-! ## Lemmas on the handler, one per path -/

theorem setReply_answer (req : Msg) : (Msg.zero.SetReply req).Answer = [] := by
  unfold Msg.SetReply
  cases req.Question <;> simp only [] <;> split <;> rfl

theorem handleDNSRequest_path_panic (env : Env) (config : Config) (w : ResponseWriter)
    (net : List Attempt) (req : Msg) (hq : req.Question = []) :
    handleDNSRequest env config w net req = .error (.indexOutOfRange 0 0) := by
  simp only [handleDNSRequest, hq]

theorem handleDNSRequest_path_drop (env : Env) (config : Config) (w : ResponseWriter)
    (net : List Attempt) (req : Msg) (question : Question) (rest : List Question) (e : String)
    (hq : req.Question = question :: rest)
    (haddr : env.SplitHostPort w.LocalAddr = .error e) :
    handleDNSRequest env config w net req = .ok (w, net) := by
  simp only [handleDNSRequest, hq, haddr]

theorem handleDNSRequest_path_local (env : Env) (config : Config) (w : ResponseWriter)
    (net : List Attempt) (req : Msg) (question : Question) (rest : List Question)
    (serverIP port responseIP : String)
    (hq : req.Question = question :: rest)
    (haddr : env.SplitHostPort w.LocalAddr = .ok (serverIP, port))
    (hfound : getResponseIP config.DNSConfigs question.Name serverIP = (responseIP, true)) :
    handleDNSRequest env config w net req =
      .ok (w.WriteMsg { Msg.zero.SetReply req with
            Answer := [RR.A ⟨question.Name, TypeA, ClassINET, 300, 0⟩ (env.ParseIP responseIP)] },
          net) := by
  simp only [handleDNSRequest, hq, haddr, hfound, setReply_answer, List.nil_append]

theorem handleDNSRequest_path_forwarded (env : Env) (config : Config) (w : ResponseWriter)
    (net net1 : List Attempt) (req extResp : Msg) (question : Question) (rest : List Question)
    (serverIP port : String)
    (hq : req.Question = question :: rest)
    (haddr : env.SplitHostPort w.LocalAddr = .ok (serverIP, port))
    (hmiss : (getResponseIP config.DNSConfigs question.Name serverIP).2 = false)
    (hext : queryExternalDNS env question.Name config.DNSServers net = (.ok extResp, net1)) :
    handleDNSRequest env config w net req =
      .ok (w.WriteMsg { Msg.zero.SetReply req with Answer := extResp.Answer }, net1) := by
  rcases hg : getResponseIP config.DNSConfigs question.Name serverIP with ⟨ip, found⟩
  rw [hg] at hmiss
  simp only at hmiss
  subst hmiss
  simp only [handleDNSRequest, hq, haddr, hg, hext]

theorem handleDNSRequest_path_empty (env : Env) (config : Config) (w : ResponseWriter)
    (net net1 : List Attempt) (req : Msg) (question : Question) (rest : List Question)
    (serverIP port e : String)
    (hq : req.Question = question :: rest)
    (haddr : env.SplitHostPort w.LocalAddr = .ok (serverIP, port))
    (hmiss : (getResponseIP config.DNSConfigs question.Name serverIP).2 = false)
    (hext : queryExternalDNS env question.Name config.DNSServers net = (.error e, net1)) :
    handleDNSRequest env config w net req = .ok (w.WriteMsg (Msg.zero.SetReply req), net1) := by
  rcases hg : getResponseIP config.DNSConfigs question.Name serverIP with ⟨ip, found⟩
  rw [hg] at hmiss
  simp only at hmiss
  subst hmiss
  simp only [handleDNSRequest, hq, haddr, hg, hext]

theorem setReply_id (req : Msg) : (Msg.zero.SetReply req).Id = req.Id := by
  unfold Msg.SetReply
  cases req.Question <;> simp only [] <;> split <;> rfl

theorem setReply_response (req : Msg) : (Msg.zero.SetReply req).Response = true := by
  unfold Msg.SetReply
  cases req.Question <;> simp only [] <;> split <;> rfl

theorem setReply_rcode (req : Msg) : (Msg.zero.SetReply req).Rcode = RcodeSuccess := by
  unfold Msg.SetReply
  cases req.Question <;> simp only []

theorem setReply_question (req : Msg) (question : Question) (rest : List Question)
    (hq : req.Question = question :: rest) :
    (Msg.zero.SetReply req).Question = [question] := by
  unfold Msg.SetReply
  rw [hq]

/-- With a question and a local address that splits, the handler writes one
message: the reply made by `SetReply` with some answer section. -/
theorem handleDNSRequest_path_written (env : Env) (config : Config) (w : ResponseWriter)
    (net : List Attempt) (req : Msg) (question : Question) (rest : List Question)
    (serverIP port : String)
    (hq : req.Question = question :: rest)
    (haddr : env.SplitHostPort w.LocalAddr = .ok (serverIP, port)) :
    ∃ (answers : List RR) (net1 : List Attempt),
      handleDNSRequest env config w net req =
        .ok (w.WriteMsg { Msg.zero.SetReply req with Answer := answers }, net1) := by
  rcases hg : getResponseIP config.DNSConfigs question.Name serverIP with ⟨ip, found⟩
  cases found with
  | true => exact ⟨_, _, handleDNSRequest_path_local env config w net req question rest serverIP port
      ip hq haddr hg⟩
  | false =>
    have hmiss : (getResponseIP config.DNSConfigs question.Name serverIP).2 = false := by
      rw [hg]
    rcases hext : queryExternalDNS env question.Name config.DNSServers net with ⟨r, net1⟩
    cases r with
    | ok extResp =>
      exact ⟨_, _, handleDNSRequest_path_forwarded env config w net net1 req extResp question rest
        serverIP port hq haddr hmiss hext⟩
    | error e =>
      refine ⟨[], net1, ?_⟩
      rw [handleDNSRequest_path_empty env config w net net1 req question rest serverIP port e
        hq haddr hmiss hext]
      have h0 := setReply_answer req
      rw [← h0]

theorem queryLoop_issued (env : Env) (m : Msg) (servers : List String) (net : List Attempt) :
    ∃ k, (queryLoop env m servers net).2 = net ++ attemptsOn m (servers.take k) := by
  induction servers generalizing net with
  | nil => exact ⟨0, by simp [queryLoop, attemptsOn]⟩
  | cons server rest ih =>
    cases hu : usable (env.Exchange net m server) with
    | true =>
      obtain ⟨resp, hx, hans⟩ := (usable_eq_true_iff _).mp hu
      rw [queryLoop_step_of_usable env m server rest net resp hx hans]
      exact ⟨1, by simp [attemptsOn]⟩
    | false =>
      rw [queryLoop_step_of_not_usable env m server rest net hu]
      obtain ⟨k, hk⟩ := ih (net ++ [Attempt.mk server m])
      exact ⟨k + 1, by rw [hk]; simp [attemptsOn, List.append_assoc]⟩

/-! ## The claims -/

/-- C2: `getResponseIP` is first-match lookup. It equals the lookup the
specification words; when some entry has exactly the domain and the interface
asked for, it returns the response address of the earliest such entry in list
order together with `true`, whatever later entries say; when none has, it
returns the empty string and `false`; so found is `true` exactly when an
exactly matching entry exists. -/
theorem getResponseIP_first_match (dnsConfigs : List DNSConfig) (domain iface : String) :
    getResponseIP dnsConfigs domain iface = firstMatchLookup dnsConfigs domain iface ∧
    ((∃ cfg ∈ dnsConfigs, cfg.Domain = domain ∧ cfg.Interface = iface) →
      ∃ (i : Nat) (cfg : DNSConfig), dnsConfigs[i]? = some cfg ∧
        (cfg.Domain = domain ∧ cfg.Interface = iface) ∧
        (∀ (j : Nat) (c : DNSConfig), j < i → dnsConfigs[j]? = some c →
          ¬ (c.Domain = domain ∧ c.Interface = iface)) ∧
        getResponseIP dnsConfigs domain iface = (cfg.ResponseIP, true)) ∧
    ((¬ ∃ cfg ∈ dnsConfigs, cfg.Domain = domain ∧ cfg.Interface = iface) →
      getResponseIP dnsConfigs domain iface = ("", false)) ∧
    ((getResponseIP dnsConfigs domain iface).2 = true ↔
      ∃ cfg ∈ dnsConfigs, cfg.Domain = domain ∧ cfg.Interface = iface) :=
  ⟨getResponseIP_eq_firstMatchLookup dnsConfigs domain iface,
   getResponseIP_of_exists dnsConfigs domain iface,
   getResponseIP_of_not_exists dnsConfigs domain iface,
   getResponseIP_found_iff dnsConfigs domain iface⟩

/-- Two entries for the same pair with different addresses: the earlier one
is found and wins; a name differing only in letter case, or only by a prefix
label, does not match. -/
theorem getResponseIP_first_match_witness :
    (getResponseIP [⟨"a.example.", "10.0.0.1", "192.168.1.5"⟩,
        ⟨"a.example.", "10.0.0.1", "192.168.1.6"⟩] "a.example." "10.0.0.1").2 = true ∧
    getResponseIP [⟨"a.example.", "10.0.0.1", "192.168.1.5"⟩,
        ⟨"a.example.", "10.0.0.1", "192.168.1.6"⟩] "a.example." "10.0.0.1"
      = ("192.168.1.5", true) ∧
    getResponseIP [⟨"a.example.", "10.0.0.1", "192.168.1.5"⟩] "A.example." "10.0.0.1"
      = ("", false) ∧
    getResponseIP [⟨"a.example.", "10.0.0.1", "192.168.1.5"⟩] "www.a.example." "10.0.0.1"
      = ("", false) :=
  ⟨(getResponseIP_first_match [⟨"a.example.", "10.0.0.1", "192.168.1.5"⟩,
      ⟨"a.example.", "10.0.0.1", "192.168.1.6"⟩] "a.example." "10.0.0.1").2.2.2.mpr
      ⟨_, List.mem_cons_self _ _, rfl, rfl⟩,
   rfl,
   (getResponseIP_first_match [⟨"a.example.", "10.0.0.1", "192.168.1.5"⟩]
      "A.example." "10.0.0.1").2.2.1 (by decide),
   (getResponseIP_first_match [⟨"a.example.", "10.0.0.1", "192.168.1.5"⟩]
      "www.a.example." "10.0.0.1").2.2.1 (by decide)⟩

/-- C3: first-success policy of `queryExternalDNS`. If server number `i`
(counted from 0 here) is the first whose exchange gives no error and at least
one answer record, the function returns that server's response and no error,
the exchanges it issued are one with each of the servers up to and including
that one, in configured order, none with a later server, and every exchange
it issued carries the single question (domain, type A, class INET). -/
theorem queryExternalDNS_first_success (env : Env) (domain : String) (servers : List String)
    (net : List Attempt) (i : Nat) (resp : Msg)
    (hfail : ∀ j r, j < i →
      exchangeAt env (externalQuery env domain) servers net j = some r → usable r = false)
    (hok : exchangeAt env (externalQuery env domain) servers net i = some (.ok resp))
    (hans : 0 < resp.Answer.length) :
    queryExternalDNS env domain servers net =
      (.ok resp, net ++ (servers.take (i + 1)).map
        (fun server => Attempt.mk server (externalQuery env domain))) ∧
    (servers.take (i + 1)).length = i + 1 ∧
    (externalQuery env domain).Question = [⟨domain, TypeA, ClassINET⟩] := by
  refine ⟨queryLoop_first_success env _ servers net i resp hfail hok hans, ?_, rfl⟩
  have hi : i < servers.length := by
    by_contra hge
    have : servers[i]? = none := List.getElem?_eq_none (by omega)
    simp [exchangeAt, this] at hok
  rw [List.length_take]
  omega

/-- C4: exhaustion of `queryExternalDNS`. It returns an error exactly when
every server's exchange errors or has no answer record; then it issued one
exchange with every server, in configured order, and the error is the fixed
one of the function, not an error of an attempt; with no server configured it
fails at once and issues nothing. -/
theorem queryExternalDNS_exhaustion (env : Env) (domain : String) (servers : List String)
    (net : List Attempt) :
    ((∃ e, (queryExternalDNS env domain servers net).1 = .error e) ↔
      AllFail env (externalQuery env domain) servers net) ∧
    (AllFail env (externalQuery env domain) servers net →
      queryExternalDNS env domain servers net =
        (.error "no external DNS response obtained",
          net ++ servers.map (fun server => Attempt.mk server (externalQuery env domain)))) ∧
    queryExternalDNS env domain [] net = (.error "no external DNS response obtained", net) := by
  refine ⟨⟨?_, ?_⟩, ?_, rfl⟩
  · rintro ⟨e, he⟩
    exact allFail_of_queryLoop_error env _ servers net e he
  · intro h
    exact ⟨_, by rw [queryExternalDNS, queryLoop_all_fail env _ servers net h]⟩
  · intro h
    exact queryLoop_all_fail env _ servers net h

theorem sampleEnv_first_fails (j : Nat) (r : Except String Msg) (hj : j < 1)
    (hr : exchangeAt sampleEnv (externalQuery sampleEnv "a.example.")
      ["1.1.1.1:53", "8.8.8.8:53"] [] j = some r) : usable r = false := by
  have h0 : j = 0 := by omega
  subst h0
  have e : exchangeAt sampleEnv (externalQuery sampleEnv "a.example.")
      ["1.1.1.1:53", "8.8.8.8:53"] [] 0 = some (.error "i/o timeout") := rfl
  rw [e] at hr
  cases hr
  rfl

theorem sampleEnv_all_fail (m : Msg) (net : List Attempt) :
    AllFail sampleEnv m ["1.1.1.1:53", "9.9.9.9:53"] net := by
  intro i r hr
  match i, hr with
  | 0, hr =>
    rw [exchangeAt_cons_zero] at hr
    cases hr
    rfl
  | 1, hr =>
    rw [exchangeAt_cons_succ, exchangeAt_cons_zero] at hr
    cases hr
    rfl
  | i + 2, hr =>
    rw [exchangeAt_cons_succ, exchangeAt_cons_succ, exchangeAt_nil] at hr
    cases hr

/-- Servers `1.1.1.1:53` (times out) and `8.8.8.8:53` (answers): the second
server's response is returned after one exchange with each. -/
theorem queryExternalDNS_first_success_witness :
    queryExternalDNS sampleEnv "a.example." ["1.1.1.1:53", "8.8.8.8:53"] [] =
      (.ok sampleResponse, [] ++ (["1.1.1.1:53", "8.8.8.8:53"].take (1 + 1)).map
        (fun server => Attempt.mk server (externalQuery sampleEnv "a.example."))) ∧
    (["1.1.1.1:53", "8.8.8.8:53"].take (1 + 1)).length = 1 + 1 ∧
    (externalQuery sampleEnv "a.example.").Question = [⟨"a.example.", TypeA, ClassINET⟩] :=
  queryExternalDNS_first_success sampleEnv "a.example." ["1.1.1.1:53", "8.8.8.8:53"] [] 1
    sampleResponse sampleEnv_first_fails rfl (by decide)

/-- Servers `1.1.1.1:53` and `9.9.9.9:53` both time out: the fixed error,
after one exchange with each. -/
theorem queryExternalDNS_exhaustion_witness :
    queryExternalDNS sampleEnv "a.example." ["1.1.1.1:53", "9.9.9.9:53"] [] =
      (.error "no external DNS response obtained",
        [] ++ ["1.1.1.1:53", "9.9.9.9:53"].map
          (fun server => Attempt.mk server (externalQuery sampleEnv "a.example."))) :=
  (queryExternalDNS_exhaustion sampleEnv "a.example." ["1.1.1.1:53", "9.9.9.9:53"] []).2.1
    (sampleEnv_all_fail _ _)

/-- C1: when the first question's name and the arrival address equal the
domain and interface of some override entry, the handler writes one response
whose answer section is exactly one A record of class INET with the question
name, ttl 300 and the configured response address of a matching override
entry (the earliest one in table order, handed to `net.ParseIP`), and it
issues no upstream exchange. -/
theorem handleDNSRequest_local_answer (env : Env) (config : Config) (w : ResponseWriter)
    (net : List Attempt) (req : Msg) (question : Question) (rest : List Question)
    (serverIP port : String)
    (hq : req.Question = question :: rest)
    (haddr : env.SplitHostPort w.LocalAddr = .ok (serverIP, port))
    (hmatch : ∃ cfg ∈ config.DNSConfigs,
      cfg.Domain = question.Name ∧ cfg.Interface = serverIP) :
    ∃ (i : Nat) (cfg : DNSConfig) (msg : Msg),
      config.DNSConfigs[i]? = some cfg ∧
      (cfg.Domain = question.Name ∧ cfg.Interface = serverIP) ∧
      (∀ (j : Nat) (c : DNSConfig), j < i → config.DNSConfigs[j]? = some c →
        ¬ (c.Domain = question.Name ∧ c.Interface = serverIP)) ∧
      handleDNSRequest env config w net req =
        .ok ({ w with written := w.written ++ [msg] }, net) ∧
      msg.Answer = [RR.A ⟨question.Name, TypeA, ClassINET, 300, 0⟩
        (env.ParseIP cfg.ResponseIP)] := by
  obtain ⟨i, cfg, hi, hm, hbefore, hres⟩ :=
    getResponseIP_of_exists config.DNSConfigs question.Name serverIP hmatch
  exact ⟨i, cfg, _, hi, hm, hbefore,
    handleDNSRequest_path_local env config w net req question rest serverIP port cfg.ResponseIP
      hq haddr hres, rfl⟩

/-- The scenario of the specification: table (a.example., 10.0.0.1,
192.168.1.5), query for a.example. (asked as type AAAA) on 10.0.0.1. -/
theorem handleDNSRequest_local_answer_witness :
    ∃ (i : Nat) (cfg : DNSConfig) (msg : Msg),
      sampleConfig.DNSConfigs[i]? = some cfg ∧
      (cfg.Domain = "a.example." ∧ cfg.Interface = "10.0.0.1") ∧
      (∀ (j : Nat) (c : DNSConfig), j < i → sampleConfig.DNSConfigs[j]? = some c →
        ¬ (c.Domain = "a.example." ∧ c.Interface = "10.0.0.1")) ∧
      handleDNSRequest sampleEnv sampleConfig ⟨"10.0.0.1:53", []⟩ []
          (sampleQuery [⟨"a.example.", 28, ClassINET⟩]) =
        .ok (⟨"10.0.0.1:53", [] ++ [msg]⟩, []) ∧
      msg.Answer = [RR.A ⟨"a.example.", TypeA, ClassINET, 300, 0⟩
        (sampleEnv.ParseIP cfg.ResponseIP)] :=
  handleDNSRequest_local_answer sampleEnv sampleConfig ⟨"10.0.0.1:53", []⟩ []
    (sampleQuery [⟨"a.example.", 28, ClassINET⟩]) ⟨"a.example.", 28, ClassINET⟩ []
    "10.0.0.1" "53" rfl rfl ⟨_, List.mem_cons_self _ _, rfl, rfl⟩

/-- C5: for every request the server hands to the handler (it carries a
first question, of any type and class, with any further questions) whose
local arrival address splits, for every configuration and every upstream
behaviour, the handler returns normally, without an index out of range, and
hands exactly one message to the writer; that message is a reply to the query
(its id, reply flag set, response code of success), so the worst outcome is a
response with an empty answer section. -/
theorem handleDNSRequest_writes_one_response (env : Env) (config : Config)
    (w : ResponseWriter) (net : List Attempt) (req : Msg) (question : Question)
    (rest : List Question) (serverIP port : String)
    (hq : req.Question = question :: rest)
    (haddr : env.SplitHostPort w.LocalAddr = .ok (serverIP, port)) :
    ∃ (msg : Msg) (net1 : List Attempt),
      handleDNSRequest env config w net req =
        .ok ({ w with written := w.written ++ [msg] }, net1) ∧
      msg.Id = req.Id ∧ msg.Response = true ∧ msg.Rcode = RcodeSuccess := by
  obtain ⟨answers, net1, hres⟩ :=
    handleDNSRequest_path_written env config w net req question rest serverIP port hq haddr
  exact ⟨_, net1, hres, setReply_id req, setReply_response req, setReply_rcode req⟩

/-- A type-MX, class-CHAOS query with a second question, no override for
10.0.0.2 and both upstreams timing out: one response, written after the two
exchanges. -/
theorem handleDNSRequest_writes_one_response_witness :
    ∃ (msg : Msg) (net1 : List Attempt),
      handleDNSRequest sampleEnv unreachableConfig ⟨"10.0.0.2:53", []⟩ [] otherTypeQuery =
        .ok (⟨"10.0.0.2:53", [] ++ [msg]⟩, net1) ∧
      msg.Id = otherTypeQuery.Id ∧ msg.Response = true ∧ msg.Rcode = RcodeSuccess :=
  handleDNSRequest_writes_one_response sampleEnv unreachableConfig ⟨"10.0.0.2:53", []⟩ []
    otherTypeQuery ⟨"a.example.", 15, 3⟩ [⟨"b.example.", TypeA, ClassINET⟩] "10.0.0.2" "53"
    rfl rfl

/-- C6: the NO_ANSWER outcome. When the first question's name and the
arrival address match no override entry and every configured upstream fails
(errors or has no answer record; also when no upstream is configured), the
handler returns normally after one exchange with each upstream, hands exactly
one message to the writer, and that message has no answer record, the reply
flag set and the response code of success. -/
theorem handleDNSRequest_no_answer_outcome (env : Env) (config : Config) (w : ResponseWriter)
    (net : List Attempt) (req : Msg) (question : Question) (rest : List Question)
    (serverIP port : String)
    (hq : req.Question = question :: rest)
    (haddr : env.SplitHostPort w.LocalAddr = .ok (serverIP, port))
    (hmiss : ¬ ∃ cfg ∈ config.DNSConfigs,
      cfg.Domain = question.Name ∧ cfg.Interface = serverIP)
    (hfail : AllFail env (externalQuery env question.Name) config.DNSServers net) :
    ∃ msg : Msg,
      handleDNSRequest env config w net req =
        .ok ({ w with written := w.written ++ [msg] },
          net ++ config.DNSServers.map
            (fun server => Attempt.mk server (externalQuery env question.Name))) ∧
      msg.Answer = [] ∧ msg.Response = true ∧ msg.Rcode = RcodeSuccess := by
  have hg := getResponseIP_of_not_exists config.DNSConfigs question.Name serverIP hmiss
  have hext := queryLoop_all_fail env (externalQuery env question.Name) config.DNSServers net
    hfail
  refine ⟨Msg.zero.SetReply req, ?_, setReply_answer req, setReply_response req,
    setReply_rcode req⟩
  exact handleDNSRequest_path_empty env config w net _ req question rest serverIP port _ hq haddr
    (by rw [hg]) hext

/-- No override for 10.0.0.2 and both upstreams time out. -/
theorem handleDNSRequest_no_answer_outcome_witness :
    ∃ msg : Msg,
      handleDNSRequest sampleEnv unreachableConfig ⟨"10.0.0.2:53", []⟩ []
          (sampleQuery [⟨"a.example.", TypeA, ClassINET⟩]) =
        .ok (⟨"10.0.0.2:53", [] ++ [msg]⟩,
          [] ++ unreachableConfig.DNSServers.map
            (fun server => Attempt.mk server (externalQuery sampleEnv "a.example."))) ∧
      msg.Answer = [] ∧ msg.Response = true ∧ msg.Rcode = RcodeSuccess :=
  handleDNSRequest_no_answer_outcome sampleEnv unreachableConfig ⟨"10.0.0.2:53", []⟩ []
    (sampleQuery [⟨"a.example.", TypeA, ClassINET⟩]) ⟨"a.example.", TypeA, ClassINET⟩ []
    "10.0.0.2" "53" rfl rfl (by decide) (sampleEnv_all_fail _ _)

/-- C7: the FORWARDED_ANSWER outcome. When the first question's name and the
arrival address match no override entry and upstream number `i` (from 0) is
the first whose exchange gives no error and at least one answer record, the
handler hands one message to the writer whose answer section is that
upstream's answer section, unchanged; the upstreams before it were each tried
once and did not stop the pass. -/
theorem handleDNSRequest_forwarded_answer (env : Env) (config : Config) (w : ResponseWriter)
    (net : List Attempt) (req : Msg) (question : Question) (rest : List Question)
    (serverIP port : String) (i : Nat) (resp : Msg)
    (hq : req.Question = question :: rest)
    (haddr : env.SplitHostPort w.LocalAddr = .ok (serverIP, port))
    (hmiss : ¬ ∃ cfg ∈ config.DNSConfigs,
      cfg.Domain = question.Name ∧ cfg.Interface = serverIP)
    (hfail : ∀ j r, j < i →
      exchangeAt env (externalQuery env question.Name) config.DNSServers net j = some r →
        usable r = false)
    (hok : exchangeAt env (externalQuery env question.Name) config.DNSServers net i =
      some (.ok resp))
    (hans : 0 < resp.Answer.length) :
    ∃ msg : Msg,
      handleDNSRequest env config w net req =
        .ok ({ w with written := w.written ++ [msg] },
          net ++ (config.DNSServers.take (i + 1)).map
            (fun server => Attempt.mk server (externalQuery env question.Name))) ∧
      msg.Answer = resp.Answer := by
  have hg := getResponseIP_of_not_exists config.DNSConfigs question.Name serverIP hmiss
  have hext := queryLoop_first_success env (externalQuery env question.Name) config.DNSServers
    net i resp hfail hok hans
  exact ⟨_, handleDNSRequest_path_forwarded env config w net _ req resp question rest serverIP port
    hq haddr (by rw [hg]) hext, rfl⟩

/-- Upstreams 1.1.1.1:53 (times out) and 8.8.8.8:53 (answers), no override for
10.0.0.2: the response carries the second upstream's record, ttl 60. -/
theorem handleDNSRequest_forwarded_answer_witness :
    ∃ msg : Msg,
      handleDNSRequest sampleEnv sampleConfig ⟨"10.0.0.2:53", []⟩ []
          (sampleQuery [⟨"a.example.", TypeA, ClassINET⟩]) =
        .ok (⟨"10.0.0.2:53", [] ++ [msg]⟩,
          [] ++ (sampleConfig.DNSServers.take (1 + 1)).map
            (fun server => Attempt.mk server (externalQuery sampleEnv "a.example."))) ∧
      msg.Answer = sampleResponse.Answer :=
  handleDNSRequest_forwarded_answer sampleEnv sampleConfig ⟨"10.0.0.2:53", []⟩ []
    (sampleQuery [⟨"a.example.", TypeA, ClassINET⟩]) ⟨"a.example.", TypeA, ClassINET⟩ []
    "10.0.0.2" "53" 1 sampleResponse rfl rfl (by decide) sampleEnv_first_fails rfl (by decide)

/-- C8: whenever the handler returns, the query has a first question and the
handler wrote nothing or handed exactly one message to the writer; that
message carries the query's transaction id, has the reply flag set, and its
question section is the query's first question, which for the one-question
requests the server hands over is the query's question section; apart from
the answer section it is the reply `SetReply` made, in each of the three
outcomes: building the answer section changes no header or question field. -/
theorem handleDNSRequest_reply_correlated (env : Env) (config : Config) (w w1 : ResponseWriter)
    (net net1 : List Attempt) (req : Msg)
    (h : handleDNSRequest env config w net req = .ok (w1, net1)) :
    ∃ (question : Question) (rest : List Question), req.Question = question :: rest ∧
      (w1 = w ∨ ∃ msg : Msg, w1 = { w with written := w.written ++ [msg] } ∧
        msg.Id = req.Id ∧ msg.Response = true ∧ msg.Question = [question] ∧
        (rest = [] → msg.Question = req.Question) ∧
        msg = { Msg.zero.SetReply req with Answer := msg.Answer }) := by
  rcases hq : req.Question with _ | ⟨question, rest⟩
  · rw [handleDNSRequest_path_panic env config w net req hq] at h
    cases h
  · refine ⟨question, rest, rfl, ?_⟩
    rcases haddr : env.SplitHostPort w.LocalAddr with e | ⟨serverIP, port⟩
    · rw [handleDNSRequest_path_drop env config w net req question rest e hq haddr] at h
      left
      cases h
      rfl
    · obtain ⟨answers, net2, hres⟩ :=
        handleDNSRequest_path_written env config w net req question rest serverIP port hq haddr
      rw [hres] at h
      right
      cases h
      refine ⟨_, rfl, ?_, ?_, ?_, ?_, rfl⟩
      · exact setReply_id req
      · exact setReply_response req
      · exact setReply_question req question rest hq
      · intro hrest
        subst hrest
        exact setReply_question req question [] hq

/-- The three outcomes on a query with one question, id 7: an override hit,
a forwarded answer and an empty answer. -/
theorem handleDNSRequest_reply_correlated_witness :
    (∃ (question : Question) (rest : List Question),
      (sampleQuery [⟨"a.example.", TypeA, ClassINET⟩]).Question = question :: rest ∧
      ((⟨"10.0.0.1:53", [{ Msg.zero.SetReply (sampleQuery [⟨"a.example.", TypeA, ClassINET⟩]) with
          Answer := [RR.A ⟨"a.example.", TypeA, ClassINET, 300, 0⟩
            (sampleEnv.ParseIP "192.168.1.5")] }]⟩ : ResponseWriter) = ⟨"10.0.0.1:53", []⟩ ∨
        ∃ msg : Msg,
          (⟨"10.0.0.1:53", [{ Msg.zero.SetReply (sampleQuery [⟨"a.example.", TypeA, ClassINET⟩])
            with Answer := [RR.A ⟨"a.example.", TypeA, ClassINET, 300, 0⟩
              (sampleEnv.ParseIP "192.168.1.5")] }]⟩ : ResponseWriter) =
            ⟨"10.0.0.1:53", [] ++ [msg]⟩ ∧
          msg.Id = 7 ∧ msg.Response = true ∧ msg.Question = [question] ∧
          (rest = [] → msg.Question = [⟨"a.example.", TypeA, ClassINET⟩]) ∧
          msg = { Msg.zero.SetReply (sampleQuery [⟨"a.example.", TypeA, ClassINET⟩]) with
            Answer := msg.Answer })) :=
  handleDNSRequest_reply_correlated sampleEnv sampleConfig ⟨"10.0.0.1:53", []⟩ _ [] []
    (sampleQuery [⟨"a.example.", TypeA, ClassINET⟩]) rfl

/-- C9: when the writer's local address does not split into host and port,
the handler drops the request the server handed it: it returns normally with
nothing handed to the writer and no upstream exchange issued, and what it
does is the same for every configuration, so neither the override table nor
the server list is consulted. -/
theorem handleDNSRequest_drops_without_interface (env : Env) (config : Config)
    (w : ResponseWriter) (net : List Attempt) (req : Msg) (question : Question)
    (rest : List Question) (e : String)
    (hq : req.Question = question :: rest)
    (haddr : env.SplitHostPort w.LocalAddr = .error e) :
    handleDNSRequest env config w net req = .ok (w, net) ∧
    ∀ config2 : Config,
      handleDNSRequest env config2 w net req = handleDNSRequest env config w net req := by
  have h1 := handleDNSRequest_path_drop env config w net req question rest e hq haddr
  refine ⟨h1, fun config2 => ?_⟩
  rw [h1, handleDNSRequest_path_drop env config2 w net req question rest e hq haddr]

/-- The query for a.example. on a writer whose local address is the text
`nowhere`, with an override for a.example. in the table. -/
theorem handleDNSRequest_drops_without_interface_witness :
    handleDNSRequest sampleEnv sampleConfig ⟨"nowhere", []⟩ []
        (sampleQuery [⟨"a.example.", TypeA, ClassINET⟩]) = .ok (⟨"nowhere", []⟩, []) ∧
    ∀ config2 : Config,
      handleDNSRequest sampleEnv config2 ⟨"nowhere", []⟩ []
          (sampleQuery [⟨"a.example.", TypeA, ClassINET⟩]) =
        handleDNSRequest sampleEnv sampleConfig ⟨"nowhere", []⟩ []
          (sampleQuery [⟨"a.example.", TypeA, ClassINET⟩]) :=
  handleDNSRequest_drops_without_interface sampleEnv sampleConfig ⟨"nowhere", []⟩ []
    (sampleQuery [⟨"a.example.", TypeA, ClassINET⟩]) ⟨"a.example.", TypeA, ClassINET⟩ []
    "missing port in address" rfl rfl

/-- C10: the answer section depends only on the first question's name and
the arrival interface. Two queries whose first questions have the same name,
arriving on writers whose local addresses split to the same host, run in the
same environment after the same exchanges: both return, each hands one
message to its writer, the two messages have the same answer section, and the
same upstream exchanges are issued, each one the question (name, type A,
class INET) whatever type or class the client asked for; on an override hit
nothing is issued and the answer is one A record with ttl 300. -/
theorem handleDNSRequest_depends_on_name_and_interface (env : Env) (config : Config)
    (w1 w2 : ResponseWriter) (net : List Attempt) (req1 req2 : Msg)
    (q1 q2 : Question) (rest1 rest2 : List Question) (serverIP port1 port2 : String)
    (hq1 : req1.Question = q1 :: rest1) (hq2 : req2.Question = q2 :: rest2)
    (hname : q1.Name = q2.Name)
    (haddr1 : env.SplitHostPort w1.LocalAddr = .ok (serverIP, port1))
    (haddr2 : env.SplitHostPort w2.LocalAddr = .ok (serverIP, port2)) :
    ∃ (answers : List RR) (issued : List String),
      handleDNSRequest env config w1 net req1 =
        .ok ({ w1 with written := w1.written ++
                [{ Msg.zero.SetReply req1 with Answer := answers }] },
             net ++ issued.map (fun server => Attempt.mk server (externalQuery env q1.Name))) ∧
      handleDNSRequest env config w2 net req2 =
        .ok ({ w2 with written := w2.written ++
                [{ Msg.zero.SetReply req2 with Answer := answers }] },
             net ++ issued.map (fun server => Attempt.mk server (externalQuery env q1.Name))) ∧
      (externalQuery env q1.Name).Question = [⟨q1.Name, TypeA, ClassINET⟩] ∧
      ((getResponseIP config.DNSConfigs q1.Name serverIP).2 = true →
        issued = [] ∧
        answers = [RR.A ⟨q1.Name, TypeA, ClassINET, 300, 0⟩
          (env.ParseIP (getResponseIP config.DNSConfigs q1.Name serverIP).1)]) := by
  rcases hg : getResponseIP config.DNSConfigs q1.Name serverIP with ⟨ip, found⟩
  have hg2 : getResponseIP config.DNSConfigs q2.Name serverIP = (ip, found) := by
    rw [← hname]; exact hg
  cases found with
  | true =>
    refine ⟨_, [], ?_, ?_, rfl, fun _ => ⟨rfl, rfl⟩⟩
    · rw [handleDNSRequest_path_local env config w1 net req1 q1 rest1 serverIP port1 ip hq1 haddr1 hg]
      simp [ResponseWriter.WriteMsg]
    · rw [handleDNSRequest_path_local env config w2 net req2 q2 rest2 serverIP port2 ip hq2 haddr2
        hg2, hname]
      simp [ResponseWriter.WriteMsg]
  | false =>
    have hmiss1 : (getResponseIP config.DNSConfigs q1.Name serverIP).2 = false := by rw [hg]
    have hmiss2 : (getResponseIP config.DNSConfigs q2.Name serverIP).2 = false := by rw [hg2]
    obtain ⟨k, hk⟩ := queryLoop_issued env (externalQuery env q1.Name) config.DNSServers net
    rcases hext : queryExternalDNS env q1.Name config.DNSServers net with ⟨r, net1⟩
    have hnet : net1 = net ++ attemptsOn (externalQuery env q1.Name)
        (config.DNSServers.take k) := by
      have : (queryExternalDNS env q1.Name config.DNSServers net).2 = net1 := by rw [hext]
      rw [← this]; exact hk
    have hext2 : queryExternalDNS env q2.Name config.DNSServers net = (r, net1) := by
      rw [← hname]; exact hext
    subst hnet
    cases r with
    | ok extResp =>
      refine ⟨extResp.Answer, config.DNSServers.take k, ?_, ?_, rfl, ?_⟩
      · rw [handleDNSRequest_path_forwarded env config w1 net _ req1 extResp q1 rest1 serverIP port1
          hq1 haddr1 hmiss1 hext]
        rfl
      · rw [handleDNSRequest_path_forwarded env config w2 net _ req2 extResp q2 rest2 serverIP port2
          hq2 haddr2 hmiss2 hext2]
        rfl
      · intro hf; simp at hf
    | error e =>
      refine ⟨[], config.DNSServers.take k, ?_, ?_, rfl, ?_⟩
      · rw [handleDNSRequest_path_empty env config w1 net _ req1 q1 rest1 serverIP port1 e
          hq1 haddr1 hmiss1 hext]
        have h0 := setReply_answer req1
        rw [← h0]
        rfl
      · rw [handleDNSRequest_path_empty env config w2 net _ req2 q2 rest2 serverIP port2 e
          hq2 haddr2 hmiss2 hext2]
        have h0 := setReply_answer req2
        rw [← h0]
        rfl
      · intro hf; simp at hf

/-- A type-AAAA query and a type-MX query with a second question, both for
a.example. on 10.0.0.2: the same forwarded answer and the same two type-A
exchanges. -/
theorem handleDNSRequest_depends_on_name_and_interface_witness :
    ∃ (answers : List RR) (issued : List String),
      handleDNSRequest sampleEnv sampleConfig ⟨"10.0.0.2:53", []⟩ []
          (sampleQuery [⟨"a.example.", 28, ClassINET⟩]) =
        .ok (⟨"10.0.0.2:53", [] ++
                [{ Msg.zero.SetReply (sampleQuery [⟨"a.example.", 28, ClassINET⟩]) with
                    Answer := answers }]⟩,
             [] ++ issued.map
               (fun server => Attempt.mk server (externalQuery sampleEnv "a.example."))) ∧
      handleDNSRequest sampleEnv sampleConfig ⟨"10.0.0.2:53", []⟩ [] otherTypeQuery =
        .ok (⟨"10.0.0.2:53", [] ++
                [{ Msg.zero.SetReply otherTypeQuery with Answer := answers }]⟩,
             [] ++ issued.map
               (fun server => Attempt.mk server (externalQuery sampleEnv "a.example."))) ∧
      (externalQuery sampleEnv "a.example.").Question = [⟨"a.example.", TypeA, ClassINET⟩] ∧
      ((getResponseIP sampleConfig.DNSConfigs "a.example." "10.0.0.2").2 = true →
        issued = [] ∧
        answers = [RR.A ⟨"a.example.", TypeA, ClassINET, 300, 0⟩
          (sampleEnv.ParseIP (getResponseIP sampleConfig.DNSConfigs "a.example." "10.0.0.2").1)]) :=
  handleDNSRequest_depends_on_name_and_interface sampleEnv sampleConfig
    ⟨"10.0.0.2:53", []⟩ ⟨"10.0.0.2:53", []⟩ []
    (sampleQuery [⟨"a.example.", 28, ClassINET⟩]) otherTypeQuery
    ⟨"a.example.", 28, ClassINET⟩ ⟨"a.example.", 15, 3⟩ [] [⟨"b.example.", TypeA, ClassINET⟩]
    "10.0.0.2" "53" "53" rfl rfl rfl rfl rfl

end DnsServer
